import Mathlib

/-
Verification of the bird-identifier backend script.

The program opens a local image file, sends one chat-completion request
(fixed system prompt, fixed user prompt, model gpt-4-turbo, the opened
file attached as an image payload) to a remote service, and returns the
text content of the first choice of the response.  At module top level it
classifies the hard-coded path "bird_image.jpg" and prints the result.

The embedding is state-passing: the filesystem and the process-wide
credential form a World, the remote service is a stub function, and the
observable effects (file open, outbound request, file close) are recorded
in an event trace.
-/

namespace BirdIdentifier

/-- A message object inside one choice of the remote response.  The
response is a dynamic dictionary, so the content field may be absent. -/
structure Message where
  content : Option String
deriving DecidableEq

/-- One candidate answer in the choices sequence of the remote response.
The message field may be absent from the dictionary. -/
structure Choice where
  message : Option Message
deriving DecidableEq

/-- The remote chat-completion response: a sequence of choices. -/
structure ChatResponse where
  choices : List Choice
deriving DecidableEq

/-- Error taxonomy of the wrapper, following the spec's classification of
the uncaught Python exceptions: FileNotFound for a failed open,
RemoteServiceError for a failure raised by the remote call, and
MalformedResponse for a failed extraction from the response dictionary. -/
inductive Err where
  | FileNotFound
  | RemoteServiceError
  | MalformedResponse
deriving DecidableEq

/-- The outbound request built by classify_bird.  The auth field records
the credential the client library attaches from the module-level
openai.api_key. -/
structure Request where
  model : String
  messages : List (String × String)
  files : List (String × List Nat)
  auth : String
deriving DecidableEq

/-- Observable effects of one call. -/
inductive Event where
  | fileOpened (path : String)
  | networkRequest (req : Request)
  | fileClosed (path : String)
deriving DecidableEq

/-- Process-wide state: the local filesystem (a path is readable iff it
maps to some byte list) and the module-level credential openai.api_key. -/
structure World where
  fs : String → Option (List Nat)
  api_key : String

/-- A stub of the remote service: it either raises (network error,
authentication failure, ...) or returns a response. -/
def Service : Type := Request → Except Unit ChatResponse

/-- Result of one call to classify_bird: the returned string or the
propagated error, the world after the call, and the event trace. -/
structure RunResult where
  result : Except Err String
  world : World
  trace : List Event

/-- The request literally written in the source: model "gpt-4-turbo", the
two fixed role-tagged messages, and the opened file attached under the
key "image". -/
def mkRequest (w : World) (bytes : List Nat) : Request :=
  { model := "gpt-4-turbo"
    messages := [("system", "You are a bird species identification assistant."),
                 ("user", "Identify the bird in this image.")]
    files := [("image", bytes)]
    auth := w.api_key }

/-- The extraction response["choices"][0]["message"]["content"]: it fails
when the choices sequence is empty, when the first choice has no message
field, or when that message has no content field. -/
def extract (resp : ChatResponse) : Except Err String :=
  match resp.choices with
  | [] => Except.error Err.MalformedResponse
  | c :: _ =>
      match c.message with
      | none => Except.error Err.MalformedResponse
      | some m =>
          match m.content with
          | none => Except.error Err.MalformedResponse
          | some s => Except.ok s

/-- Embedding of classify_bird.  The with-block opens the file (failing
with FileNotFound when the path is not readable), issues the request
while the file is open, and closes the file before the extraction runs;
an error raised by the remote call propagates after the close. -/
def classify_bird (w : World) (svc : Service) (image_path : String) : RunResult :=
  match w.fs image_path with
  | none => { result := Except.error Err.FileNotFound, world := w, trace := [] }
  | some bytes =>
      match svc (mkRequest w bytes) with
      | Except.error _ =>
          { result := Except.error Err.RemoteServiceError
            world := w
            trace := [Event.fileOpened image_path,
                      Event.networkRequest (mkRequest w bytes),
                      Event.fileClosed image_path] }
      | Except.ok resp =>
          { result := extract resp
            world := w
            trace := [Event.fileOpened image_path,
                      Event.networkRequest (mkRequest w bytes),
                      Event.fileClosed image_path] }

/-- True when the trace holds a close event for the path q. -/
def hasClose (q : String) : List Event → Bool
  | [] => false
  | Event.fileClosed r :: es => (q == r) || hasClose q es
  | _ :: es => hasClose q es

/-- True when every file opened in the trace is also closed in it. -/
def closesAll (tr : List Event) : Bool :=
  tr.all fun e =>
    match e with
    | Event.fileOpened q => hasClose q tr
    | _ => true

/-- Number of outbound requests recorded in a trace. -/
def countNet : List Event → Nat
  | [] => 0
  | Event.networkRequest _ :: es => countNet es + 1
  | _ :: es => countNet es

/-- The world before the module is loaded: the credential is not yet set. -/
def initial_world (fs : String → Option (List Nat)) : World :=
  { fs := fs, api_key := "" }

/-- Line 3 of the module: openai.api_key is assigned the fixed literal. -/
def module_init (w : World) : World :=
  { w with api_key := "your_openai_api_key" }

/-- Result of executing the module top level: exit outcome, final world,
event trace, and the lines written to standard output. -/
structure ModuleResult where
  exit : Except Err Unit
  world : World
  trace : List Event
  stdout : List String

/-- The single classification the module top level performs, on the
hard-coded path, after the credential assignment. -/
def classify_run (fs : String → Option (List Nat)) (svc : Service) : RunResult :=
  classify_bird (module_init (initial_world fs)) svc "bird_image.jpg"

/-- The module top level: bird_species = classify_bird("bird_image.jpg")
followed by print("Identified Bird:", bird_species).  An error propagates
uncaught and nothing is printed; on success print emits one line with the
default single-space separator. -/
def module_run (fs : String → Option (List Nat)) (svc : Service) : ModuleResult :=
  match (classify_run fs svc).result with
  | Except.ok s =>
      { exit := Except.ok ()
        world := (classify_run fs svc).world
        trace := (classify_run fs svc).trace
        stdout := ["Identified Bird: " ++ s] }
  | Except.error e =>
      { exit := Except.error e
        world := (classify_run fs svc).world
        trace := (classify_run fs svc).trace
        stdout := [] }

/-- classify_bird never modifies the world: it reads the file and issues
the request but writes nothing to disk or to shared state. -/
theorem classify_world_eq (w : World) (svc : Service) (p : String) :
    (classify_bird w svc p).world = w := by
  unfold classify_bird
  split
  · rfl
  · split <;> rfl

/-- The trace of one call is either empty (the open failed) or exactly
open, one request built by mkRequest from the file bytes, close. -/
theorem classify_trace_cases (w : World) (svc : Service) (p : String) :
    (classify_bird w svc p).trace = [] ∨
    ∃ bytes, w.fs p = some bytes ∧
      (classify_bird w svc p).trace =
        [Event.fileOpened p, Event.networkRequest (mkRequest w bytes),
         Event.fileClosed p] := by
  unfold classify_bird
  split
  · exact Or.inl rfl
  · rename_i bytes hf
    refine Or.inr ⟨bytes, hf, ?_⟩
    split <;> rfl

/-- C1: when the remote service returns a response whose first choice
carries a message with text content, classify_bird returns exactly that
content, unmodified. -/
theorem classify_first_choice (w : World) (svc : Service) (p : String)
    (bytes : List Nat) (resp : ChatResponse) (c : Choice) (cs : List Choice)
    (m : Message) (s : String)
    (hfile : w.fs p = some bytes)
    (hsvc : ∀ q, svc q = Except.ok resp)
    (hch : resp.choices = c :: cs)
    (hm : c.message = some m)
    (hc : m.content = some s) :
    (classify_bird w svc p).result = Except.ok s := by
  unfold classify_bird
  simp only [hfile, hsvc]
  unfold extract
  simp [hch, hm, hc]

/-- Witness for C1 at a concrete input: a one-choice stub response with
content "Northern Cardinal" yields exactly "Northern Cardinal". -/
theorem classify_first_choice_witness :
    (classify_bird { fs := fun _ => some [7], api_key := "k" }
        (fun _ => Except.ok
          { choices := [{ message := some { content := some "Northern Cardinal" } }] })
        "bird.jpg").result = Except.ok "Northern Cardinal" :=
  classify_first_choice
    { fs := fun _ => some [7], api_key := "k" }
    (fun _ => Except.ok
      { choices := [{ message := some { content := some "Northern Cardinal" } }] })
    "bird.jpg" [7]
    { choices := [{ message := some { content := some "Northern Cardinal" } }] }
    { message := some { content := some "Northern Cardinal" } } []
    { content := some "Northern Cardinal" } "Northern Cardinal"
    rfl (fun _ => rfl) rfl rfl rfl

/-- C2: when the remote service returns a response with zero choices, the
extraction fails and classify_bird fails with MalformedResponse. -/
theorem classify_empty_choices (w : World) (svc : Service) (p : String)
    (bytes : List Nat) (resp : ChatResponse)
    (hfile : w.fs p = some bytes)
    (hsvc : ∀ q, svc q = Except.ok resp)
    (hch : resp.choices = []) :
    (classify_bird w svc p).result = Except.error Err.MalformedResponse := by
  unfold classify_bird
  simp only [hfile, hsvc]
  unfold extract
  simp [hch]

/-- Witness for C2 at a concrete input: a zero-choice stub response makes
classify_bird fail with MalformedResponse. -/
theorem classify_empty_choices_witness :
    (classify_bird { fs := fun _ => some [7], api_key := "k" }
        (fun _ => Except.ok { choices := [] }) "bird.jpg").result
      = Except.error Err.MalformedResponse :=
  classify_empty_choices
    { fs := fun _ => some [7], api_key := "k" }
    (fun _ => Except.ok { choices := [] }) "bird.jpg" [7] { choices := [] }
    rfl (fun _ => rfl) rfl

/-- C9: even with a non-empty choices sequence, classify_bird fails with
MalformedResponse when the first choice lacks a message field or its
message lacks a content field. -/
theorem classify_missing_message_fields (w : World) (svc : Service) (p : String)
    (bytes : List Nat) (resp : ChatResponse) (c : Choice) (cs : List Choice)
    (hfile : w.fs p = some bytes)
    (hsvc : ∀ q, svc q = Except.ok resp)
    (hch : resp.choices = c :: cs)
    (hbad : c.message = none ∨ ∃ m, c.message = some m ∧ m.content = none) :
    (classify_bird w svc p).result = Except.error Err.MalformedResponse := by
  unfold classify_bird
  simp only [hfile, hsvc]
  unfold extract
  rcases hbad with hm | ⟨m, hm, hc⟩
  · simp [hch, hm]
  · simp [hch, hm, hc]

/-- Witness for C9 at a concrete input: one choice whose message lacks a
content field makes classify_bird fail with MalformedResponse. -/
theorem classify_missing_message_fields_witness :
    (classify_bird { fs := fun _ => some [7], api_key := "k" }
        (fun _ => Except.ok { choices := [{ message := some { content := none } }] })
        "bird.jpg").result = Except.error Err.MalformedResponse :=
  classify_missing_message_fields
    { fs := fun _ => some [7], api_key := "k" }
    (fun _ => Except.ok { choices := [{ message := some { content := none } }] })
    "bird.jpg" [7] { choices := [{ message := some { content := none } }] }
    { message := some { content := none } } []
    rfl (fun _ => rfl) rfl
    (Or.inr ⟨{ content := none }, rfl, rfl⟩)

/-- C3: when the path is not readable, classify_bird fails with
FileNotFound and its trace records no outbound network request. -/
theorem classify_missing_file (w : World) (svc : Service) (p : String)
    (h : w.fs p = none) :
    (classify_bird w svc p).result = Except.error Err.FileNotFound ∧
    ∀ r, Event.networkRequest r ∉ (classify_bird w svc p).trace := by
  unfold classify_bird
  simp [h]

/-- Witness for C3 at a concrete input: an empty filesystem makes
classify_bird fail with FileNotFound with no request in the trace. -/
theorem classify_missing_file_witness :
    (classify_bird { fs := fun _ => none, api_key := "k" }
        (fun _ => Except.error ()) "bird_image.jpg").result
      = Except.error Err.FileNotFound ∧
    ∀ r, Event.networkRequest r ∉
      (classify_bird { fs := fun _ => none, api_key := "k" }
        (fun _ => Except.error ()) "bird_image.jpg").trace :=
  classify_missing_file { fs := fun _ => none, api_key := "k" }
    (fun _ => Except.error ()) "bird_image.jpg" rfl

/-- C4: on every exit path of classify_bird — successful return, remote
failure, extraction failure, or a failed open (where no handle is ever
acquired) — every file handle opened in the trace is also closed in it. -/
theorem classify_releases_handle (w : World) (svc : Service) (p : String) :
    closesAll (classify_bird w svc p).trace = true := by
  rcases classify_trace_cases w svc p with htr | ⟨bytes, hb, htr⟩ <;> rw [htr]
  · rfl
  · simp [closesAll, hasClose]

/-- C5: at most one outbound request is issued per call, and any issued
request carries exactly the model gpt-4-turbo, the fixed system and user
prompts, and the bytes of the opened image file as the image payload. -/
theorem classify_request_shape (w : World) (svc : Service) (p : String) (r : Request)
    (h : Event.networkRequest r ∈ (classify_bird w svc p).trace) :
    countNet (classify_bird w svc p).trace ≤ 1 ∧
    r.model = "gpt-4-turbo" ∧
    r.messages = [("system", "You are a bird species identification assistant."),
                  ("user", "Identify the bird in this image.")] ∧
    ∃ bytes, w.fs p = some bytes ∧ r.files = [("image", bytes)] := by
  rcases classify_trace_cases w svc p with htr | ⟨bytes, hb, htr⟩
  · rw [htr] at h
    simp at h
  · rw [htr] at h ⊢
    simp at h
    subst h
    exact ⟨by simp [countNet], rfl, rfl, bytes, hb, rfl⟩

/-- Witness for C5 at a concrete input: a stub that raises still issues
exactly one request of the fixed shape, and the payload is the file. -/
theorem classify_request_shape_witness :
    countNet (classify_bird { fs := fun _ => some [9], api_key := "k" }
        (fun _ => Except.error ()) "img.jpg").trace ≤ 1 ∧
    (mkRequest { fs := fun _ => some [9], api_key := "k" } [9]).model = "gpt-4-turbo" ∧
    (mkRequest { fs := fun _ => some [9], api_key := "k" } [9]).messages
      = [("system", "You are a bird species identification assistant."),
         ("user", "Identify the bird in this image.")] ∧
    ∃ bytes, ({ fs := fun _ => some [9], api_key := "k" } : World).fs "img.jpg" = some bytes ∧
      (mkRequest { fs := fun _ => some [9], api_key := "k" } [9]).files = [("image", bytes)] :=
  classify_request_shape { fs := fun _ => some [9], api_key := "k" }
    (fun _ => Except.error ()) "img.jpg"
    (mkRequest { fs := fun _ => some [9], api_key := "k" } [9])
    (by decide)

/-- C6: the wrapper logic is deterministic and leaves no state behind:
running classify_bird again, from the world the first call returned, with
the same deterministic service stub and the same path, yields the same
result. -/
theorem classify_repeat_same_result (w : World) (svc : Service) (p : String) :
    (classify_bird (classify_bird w svc p).world svc p).result
      = (classify_bird w svc p).result := by
  rw [classify_world_eq]

/-- C7: when classify_bird succeeds on the module's hard-coded path, the
module writes to standard output exactly one line, Identified Bird,
colon, space, then the returned string. -/
theorem module_prints_identified (fs : String → Option (List Nat)) (svc : Service)
    (s : String)
    (h : (classify_run fs svc).result = Except.ok s) :
    (module_run fs svc).stdout = ["Identified Bird: " ++ s] := by
  unfold module_run
  simp only [h]

/-- Witness for C7 at a concrete input: a stub answering Robin makes the
module print the single line Identified Bird: Robin. -/
theorem module_prints_identified_witness :
    (module_run (fun _ => some [])
        (fun _ => Except.ok
          { choices := [{ message := some { content := some "Robin" } }] })).stdout
      = ["Identified Bird: " ++ "Robin"] :=
  module_prints_identified (fun _ => some [])
    (fun _ => Except.ok
      { choices := [{ message := some { content := some "Robin" } }] })
    "Robin" rfl

/-- The module top level leaves the world exactly as the single call to
classify_bird does. -/
theorem module_run_world (fs : String → Option (List Nat)) (svc : Service) :
    (module_run fs svc).world = module_init (initial_world fs) := by
  unfold module_run
  split <;> exact classify_world_eq _ _ _

/-- The module top level records exactly the trace of its single call to
classify_bird on the hard-coded path. -/
theorem module_run_trace (fs : String → Option (List Nat)) (svc : Service) :
    (module_run fs svc).trace = (classify_run fs svc).trace := by
  unfold module_run
  split <;> rfl

/-- C8: the credential is assigned the fixed literal at import time and
never changed afterwards: the world after the module run still holds it,
and every outbound request the run issues is authenticated with it. -/
theorem module_api_key_fixed (fs : String → Option (List Nat)) (svc : Service)
    (r : Request)
    (h : Event.networkRequest r ∈ (module_run fs svc).trace) :
    (module_run fs svc).world.api_key = "your_openai_api_key" ∧
    r.auth = "your_openai_api_key" := by
  refine ⟨by rw [module_run_world]; rfl, ?_⟩
  rw [module_run_trace] at h
  unfold classify_run at h
  rcases classify_trace_cases (module_init (initial_world fs)) svc "bird_image.jpg"
      with htr | ⟨bytes, hb, htr⟩
  · rw [htr] at h
    simp at h
  · rw [htr] at h
    simp at h
    subst h
    rfl

/-- Witness for C8 at a concrete input: the one request issued by the
module run carries the literal credential, and the credential persists. -/
theorem module_api_key_fixed_witness :
    (module_run (fun _ => some [9]) (fun _ => Except.error ())).world.api_key
      = "your_openai_api_key" ∧
    (mkRequest (module_init (initial_world fun _ => some [9])) [9]).auth
      = "your_openai_api_key" :=
  module_api_key_fixed (fun _ => some [9]) (fun _ => Except.error ())
    (mkRequest (module_init (initial_world fun _ => some [9])) [9])
    (by decide)

/-- C10: loading the module unconditionally performs exactly one
classification of the hard-coded path bird_image.jpg — its trace is that
single call's trace, holding at most one outbound request — and prints
the result on success or propagates the error printing nothing. -/
theorem module_import_effect (fs : String → Option (List Nat)) (svc : Service) :
    (module_run fs svc).trace
      = (classify_bird (module_init (initial_world fs)) svc "bird_image.jpg").trace ∧
    countNet (module_run fs svc).trace ≤ 1 ∧
    ((∃ s, (classify_run fs svc).result = Except.ok s ∧
        (module_run fs svc).stdout = ["Identified Bird: " ++ s]) ∨
     (∃ e, (classify_run fs svc).result = Except.error e ∧
        (module_run fs svc).stdout = [])) := by
  refine ⟨module_run_trace fs svc, ?_, ?_⟩
  · rw [module_run_trace]
    rcases classify_trace_cases (module_init (initial_world fs)) svc "bird_image.jpg"
        with htr | ⟨bytes, hb, htr⟩
    · rw [show (classify_run fs svc).trace = [] from htr]
      simp [countNet]
    · rw [show (classify_run fs svc).trace = _ from htr]
      simp [countNet]
  · unfold module_run
    cases hr : (classify_run fs svc).result with
    | ok s => exact Or.inl ⟨s, rfl, rfl⟩
    | error e => exact Or.inr ⟨e, rfl, rfl⟩

end BirdIdentifier
